import Mathlib

/-!
Verification of the metrics normalization and presentation pipeline of the
solar-dashboard PWA (src/public/app.js).  Machine numbers are modelled as
rationals, JS integers as Int, fallible values (NaN) as Option.
-/

namespace SmaPwa

/-- JS Math.round: round half toward positive infinity. -/
def jsRound (q : ℚ) : ℤ := ⌊q + 1/2⌋

/-! ### Gauge banding (app.js 374-391, updateMetrics) -/

/-- The four gauge slices handed to the doughnut chart. -/
structure GaugeBands where
  normal : ℚ
  warning : ℚ
  critical : ℚ
  remaining : ℚ

/-- Gauge banding of a reading against a configured maximum, translated from
app.js lines 375-390 (the code fixes the maximum to the constant 4500). -/
def gaugeBands (power m : ℚ) : GaugeBands :=
  let pct := min (power / m * 100) 100
  if pct ≤ 60 then
    { normal := pct, warning := 0, critical := 0, remaining := 100 - pct }
  else if pct ≤ 80 then
    { normal := 60, warning := pct - 60, critical := 0, remaining := 100 - pct }
  else
    { normal := 60, warning := 20, critical := pct - 80, remaining := 100 - pct }

/-- The configured maximum of the power gauge (app.js line 374). -/
def maxPower : ℚ := 4500

/-! ### Yearly yield reduction at the normalized-entry level (app.js 453-477)

C2 and C3 quantify over sequences of already-normalized year entries, the
objects the reducer sorts and differences: year and cumulative kWh integers. -/

/-- A normalized yearly entry with numeric year, the shape the delta and mean
computations of updateYearlyYield operate on. -/
structure YearEntry where
  year : ℤ
  kwh : ℤ
deriving DecidableEq

/-- Tail of the year-over-year difference map of app.js 456-463: each value is
the current cumulative kWh minus the previous one, clamped at zero. -/
def deltasAux (prev : YearEntry) : List YearEntry → List ℤ
  | [] => []
  | e :: rest => max 0 (e.kwh - prev.kwh) :: deltasAux e rest

/-- Year-over-year differences (app.js 456-463): the first entry is reported
as its cumulative value, later entries as clamped differences. -/
def deltas : List YearEntry → List ℤ
  | [] => []
  | e :: rest => e.kwh :: deltasAux e rest

/-- Index-threaded filter translated from the indexed Array.filter of
app.js 469-473: keep a difference when its index is positive and its entry
passes the given test. -/
def fullAux {δ α : Type} (test : α → Bool) : List (δ × α) → ℕ → List δ
  | [], _ => []
  | p :: rest, i =>
    (if 0 < i ∧ test p.2 then [p.1] else []) ++ fullAux test rest (i + 1)

/-- Differences of full years (app.js 469-473): differences whose index is
positive and whose entry's year is not the current calendar year. The
wall-clock current year is an explicit parameter. -/
def fullYearDeltas (l : List YearEntry) (cy : ℤ) : List ℤ :=
  fullAux (fun e => e.year != cy) ((deltas l).zip l) 0

/-- Mean yearly yield (app.js 475-477): mean over the full-year differences,
falling back to the mean over all differences when no full year qualifies,
and to zero when there are no differences at all. -/
def meanKwh (l : List YearEntry) (cy : ℤ) : ℚ :=
  let full := fullYearDeltas l cy
  if 0 < full.length then (full.sum : ℚ) / full.length
  else if 0 < (deltas l).length then ((deltas l).sum : ℚ) / (deltas l).length
  else 0

/-- Concrete sorted entries matching the spec example 2022:1000, 2023:1500,
2024:1200 kWh. -/
def exampleYears1 : List YearEntry :=
  [{ year := 2022, kwh := 1000 }, { year := 2023, kwh := 1500 }, { year := 2024, kwh := 1200 }]

/-- Concrete sorted entries whose deltas are 100, 300, 500, matching the spec
example for the mean computation. -/
def exampleYears2 : List YearEntry :=
  [{ year := 2020, kwh := 100 }, { year := 2021, kwh := 400 }, { year := 2022, kwh := 900 }]

/-! ### Time-series assembly (app.js 397-427, updateTimeSeries) -/

/-- A raw daily sample: unix-seconds timestamp and optional power, the shape
of the upstream today payload. An absent Power field is modelled as none. -/
structure RawSample where
  ts : ℤ
  power : Option ℚ
deriving DecidableEq

/-- Ordering used by the sort comparator of app.js 410: a sorts no later than
b when its timestamp is smaller or equal. -/
def tsLe (a b : RawSample) : Prop := a.ts ≤ b.ts

instance : DecidableRel tsLe := fun a b => inferInstanceAs (Decidable (a.ts ≤ b.ts))

instance : IsTotal RawSample tsLe := ⟨fun a b => le_total a.ts b.ts⟩

instance : IsTrans RawSample tsLe := ⟨fun _ _ _ => le_trans⟩

/-- Stable ascending sort by timestamp of app.js 410: JS Array.sort with the
comparator a.TimeStamp - b.TimeStamp is a stable sort by timestamp, modelled
by insertion sort. -/
def sortSamples (data : List RawSample) : List RawSample :=
  List.insertionSort tsLe data

/-- Power value emitted per sample (app.js 417): Math.round(item.Power || 0),
where a missing power is treated as 0. -/
def samplePower (s : RawSample) : ℤ := jsRound (s.power.getD 0)

/-- Result handed to the line chart: either the no-data placeholder signal or
parallel label and power sequences. -/
inductive TsResult where
  | noData
  | series (labels : List String) (powers : List ℤ)
deriving DecidableEq

/-- Time-series assembly translated from app.js 397-427. Timestamp-to-label
conversion (toLocaleTimeString, a locale-dependent runtime facility) is an
explicit parameter fmt. -/
def updateTimeSeries (fmt : ℤ → String) (data : List RawSample) : TsResult :=
  if data.isEmpty then TsResult.noData
  else
    TsResult.series ((sortSamples data).map fun s => fmt s.ts)
      ((sortSamples data).map samplePower)

/-- Stability relation on index-annotated samples: whenever two annotated
samples carry equal timestamps, the one listed first has the smaller
original index. -/
def stabRel (a b : ℕ × RawSample) : Prop := a.2.ts = b.2.ts → a.1 < b.1

/-- Timestamp ordering lifted to index-annotated samples: the comparator of
app.js 410 reads only the timestamp, never the position. -/
def tsLeIdx (a b : ℕ × RawSample) : Prop := tsLe a.2 b.2

instance : DecidableRel tsLeIdx := fun a b => inferInstanceAs (Decidable (tsLe a.2 b.2))

instance : IsTotal (ℕ × RawSample) tsLeIdx := ⟨fun a b => le_total a.2.ts b.2.ts⟩

instance : IsTrans (ℕ × RawSample) tsLeIdx := ⟨fun _ _ _ => le_trans⟩

/-- Concrete samples from the spec example: timestamps 100 and 50 arriving
out of order. -/
def exampleSamples : List RawSample :=
  [{ ts := 100, power := some 200 }, { ts := 50, power := some 300 }]

/-! ### Raw yearly records and their normalization (app.js 430-510) -/

/-- A loosely-typed JSON scalar as carried by upstream yearly records: a
number or a string. -/
inductive JVal where
  | num (q : ℚ)
  | str (s : String)
deriving DecidableEq

/-- JS truthiness of a scalar: zero and the empty string are falsy. -/
def jsTruthy : JVal → Bool
  | .num q => if q = 0 then false else true
  | .str s => if s = "" then false else true

/-- The JS short-circuit a || b. -/
def jsOr (a b : JVal) : JVal := if jsTruthy a then a else b

/-- Accumulate a run of decimal digits; any non-digit character aborts. -/
def digitsToNat : List Char → Option ℕ :=
  List.foldl
    (fun acc c => acc.bind fun n =>
      if c.isDigit then some (10 * n + (c.toNat - 48)) else none)
    (some 0)

/-- JS Number(v) coercion of a scalar, modelled for numbers, the empty string
(which coerces to 0) and optional-minus-sign decimal integer literals, the
only string shapes the dashboard data can carry; every other string coerces
to NaN, modelled as none. -/
def jsNumber : JVal → Option ℚ
  | .num q => some q
  | .str s =>
    match s.toList with
    | [] => some 0
    | '-' :: rest =>
      if rest.isEmpty then none else (digitsToNat rest).map fun n => -(n : ℚ)
    | cs => (digitsToNat cs).map fun n => (n : ℚ)

/-- An upstream yearly record: a string-keyed JSON object, modelled as an
association list. A missing binding models an absent key; JS undefined and
null are both skipped by the alias chains. -/
abbrev RawRecord := List (String × JVal)

/-- Year alias resolution of app.js 444: year, then Year, then year_value,
then yearVal, first present value wins. -/
def resolveYear (r : RawRecord) : Option JVal :=
  (r.lookup "year").orElse fun _ =>
    (r.lookup "Year").orElse fun _ =>
      (r.lookup "year_value").orElse fun _ => r.lookup "yearVal"

/-- Yield alias resolution of app.js 445: yield, Yield, total, Total,
total_yield, defaulting to 0 watt-hours when no alias is present. -/
def resolveYieldWh (r : RawRecord) : JVal :=
  ((r.lookup "yield").orElse fun _ =>
    (r.lookup "Yield").orElse fun _ =>
      (r.lookup "total").orElse fun _ =>
        (r.lookup "Total").orElse fun _ => r.lookup "total_yield").getD (.num 0)

/-- A mapped yearly entry as built at app.js 446-449: the resolved year value
(the one-character string - when no alias resolved) and the kWh value
Math.round((yieldWh || 0) / 1000); none models a NaN from a non-numeric
yield string. -/
structure YEntry where
  year : JVal
  kwh : Option ℤ
deriving DecidableEq

/-- Normalization of one record (app.js 443-449). -/
def normalizeOne (r : RawRecord) : YEntry :=
  { year := (resolveYear r).getD (.str "-")
    kwh := (jsNumber (jsOr (resolveYieldWh r) (.num 0))).map fun q => jsRound (q / 1000) }

/-- Mapping then filtering of app.js 443-450: entries whose year equals the
missing-year sentinel - are silently dropped. -/
def normalizeRecords (data : List RawRecord) : List YEntry :=
  (data.map normalizeOne).filter fun e => e.year != JVal.str "-"

/-- Comparator of app.js 453, Number(a.year) - Number(b.year), read as "a
sorts no later than b". When either year coerces to NaN the JS comparator
returns NaN and Array.sort behaviour is unspecified; modelled as keeping the
original order. -/
def yearLeB (a b : YEntry) : Bool :=
  match jsNumber a.year, jsNumber b.year with
  | some x, some y => decide (x ≤ y)
  | _, _ => true

/-- Ascending sort by numeric year (app.js 453). -/
def sortEntries (l : List YEntry) : List YEntry :=
  List.insertionSort (fun a b => yearLeB a b = true) l

/-- Raw-level year-over-year difference tail: Math.max(0, a - b) with NaN
propagating through subtraction and max as in JS. -/
def diffsAuxR (prev : YEntry) : List YEntry → List (Option ℤ)
  | [] => []
  | e :: rest =>
    (e.kwh.bind fun a => prev.kwh.map fun b => max 0 (a - b)) :: diffsAuxR e rest

/-- Raw-level differences of app.js 456-463: first entry as-is, later ones
clamped at zero. -/
def diffsR : List YEntry → List (Option ℤ)
  | [] => []
  | e :: rest => e.kwh :: diffsAuxR e rest

/-- Test of app.js 472: Number(year) !== currentYear. A NaN year compares
unequal to every number, so such entries pass the test. -/
def notCurrentYear (e : YEntry) (cy : ℚ) : Bool :=
  match jsNumber e.year with
  | some y => decide (y ≠ cy)
  | none => true

/-- Raw-level full-year differences (app.js 469-473). -/
def fullDiffsR (sorted : List YEntry) (cy : ℚ) : List (Option ℤ) :=
  fullAux (fun e => notCurrentYear e cy) ((diffsR sorted).zip sorted) 0

/-- JS reduce((a, b) => a + b, 0) over possibly-NaN values. -/
def sumOpt (l : List (Option ℤ)) : Option ℤ :=
  l.foldl (fun acc x => acc.bind fun a => x.map fun b => a + b) (some 0)

/-- Outcome handed to the yearly bar chart: the no-data placeholder signal or
the label, difference and constant mean-line series. -/
inductive YearlyResult where
  | noData
  | series (labels : List JVal) (differences : List (Option ℤ)) (mean : Option ℚ)
deriving DecidableEq

/-- Yearly yield reducer translated from app.js 430-510 (updateYearlyYield).
The guard of line 433 also fires when the input is not an array or the chart
object is absent; the model covers the list-shaped input, chart-present
case. The wall-clock current year is an explicit parameter. -/
def updateYearlyYield (cy : ℚ) (data : List RawRecord) : YearlyResult :=
  if data.isEmpty then YearlyResult.noData
  else
    let sorted := sortEntries (normalizeRecords data)
    let differences := diffsR sorted
    let labels := sorted.map YEntry.year
    let full := fullDiffsR sorted cy
    let mean :=
      if 0 < full.length then (sumOpt full).map fun s => (s : ℚ) / full.length
      else if 0 < differences.length then
        (sumOpt differences).map fun s => (s : ℚ) / differences.length
      else some 0
    YearlyResult.series labels differences mean

/-- A record carrying only a yield: no year alias resolves. -/
def noYearRecord : RawRecord := [("yield", JVal.num 1000)]

/-- A record whose year alias is present and holds the one-character string
-, the same value the code uses internally as its missing-year sentinel. -/
def dashYearRecord : RawRecord := [("year", JVal.str "-"), ("yield", JVal.num 1000)]

/-- The spec's canonical record: year 2024, yield 5000 watt-hours. -/
def canonRecord : RawRecord := [("year", JVal.num 2024), ("yield", JVal.num 5000)]

/-- The normalizer's own output for canonRecord viewed as a record: the JS
object built at app.js 446-449 stores the kWh value under the key kwh. -/
def canonOutRecord : RawRecord := [("year", JVal.num 2024), ("kwh", JVal.num 5)]

/-! ### Refresh-cycle orchestration (app.js 301-362, fetchData) -/

/-- Body of an upstream response: a JSON document carrying its success flag,
or a body that is not JSON, on which response.json() throws. -/
inductive Body where
  | json (success : Bool)
  | notJson
deriving DecidableEq

/-- Outcome of one authenticated fetch: a network-level failure (the fetch
promise rejects) or a response with its ok flag, HTTP status and body. -/
inductive FetchOutcome where
  | netErr
  | resp (ok : Bool) (status : ℕ) (body : Body)
deriving DecidableEq

/-- The three upstream resources of one refresh cycle, standing for the sink
updates updateMetrics, updateTimeSeries and updateYearlyYield. -/
inductive Resource where
  | current
  | today
  | yearly
deriving DecidableEq

/-- Error kinds surfaced by the catch block: the explicit unauthorized throw
of app.js 317-319 versus transport failures (rejected fetch, non-JSON
body). -/
inductive CycleError where
  | auth
  | transport
deriving DecidableEq

/-- Evaluation of one resource inside the try block (app.js 316-324 and the
two analogous stanzas): throw on a non-ok 401 response, throw when the body
is not JSON, otherwise yield the payload's success flag. -/
def processOne : FetchOutcome → Except CycleError Bool
  | .netErr => .error .transport
  | .resp ok status body =>
    if !ok && status == 401 then .error .auth
    else
      match body with
      | .notJson => .error .transport
      | .json s => .ok s

/-- One refresh cycle (app.js 301-362): the three resources are fetched and
processed sequentially inside a single try block, so a throw aborts the rest
of the cycle while sink updates already made stand. Returns the sink updates
made and the error caught, if any. -/
def fetchData (c t y : FetchOutcome) : List Resource × Option CycleError :=
  match processOne c with
  | .error e => ([], some e)
  | .ok sc =>
    let calls := if sc then [Resource.current] else []
    match processOne t with
    | .error e => (calls, some e)
    | .ok st =>
      let calls2 := calls ++ if st then [Resource.today] else []
      match processOne y with
      | .error e => (calls2, some e)
      | .ok sy => (calls2 ++ (if sy then [Resource.yearly] else []), none)

end SmaPwa

namespace SmaPwa

/-- C1: for every reading r and configured maximum m > 0 the four gauge bands
sum to exactly 100 and the remaining band is the complement of the clamped
percentage min(r/m*100, 100). -/
theorem c1_gauge_sum (r m : ℚ) (hm : 0 < m) :
    (gaugeBands r m).normal + (gaugeBands r m).warning + (gaugeBands r m).critical +
      (gaugeBands r m).remaining = 100 ∧
    (gaugeBands r m).remaining = 100 - min (r / m * 100) 100 := by
  have _hm := hm
  unfold gaugeBands
  dsimp only
  split_ifs with h1 h2 <;> constructor <;> ring

/-- Witness for C1 at the concrete reading 3000 W against the 4500 W maximum. -/
theorem c1_gauge_sum_witness :
    (0:ℚ) < 4500 ∧
    ((gaugeBands 3000 4500).normal + (gaugeBands 3000 4500).warning +
        (gaugeBands 3000 4500).critical + (gaugeBands 3000 4500).remaining = 100 ∧
      (gaugeBands 3000 4500).remaining = 100 - min ((3000:ℚ) / 4500 * 100) 100) :=
  ⟨by norm_num, c1_gauge_sum 3000 4500 (by norm_num)⟩

/-- C8 counterexample: at the negative reading -4500 with maximum 4500 the
normal band is negative, so the components are not all nonnegative. -/
theorem c8_counterexample : (gaugeBands (-4500) 4500).normal < 0 := by
  unfold gaugeBands
  norm_num

/-- C8 amended: for every nonnegative reading r and maximum m > 0 all four
gauge band components are nonnegative. -/
theorem c8_bands_nonneg (r m : ℚ) (hr : 0 ≤ r) (hm : 0 < m) :
    0 ≤ (gaugeBands r m).normal ∧ 0 ≤ (gaugeBands r m).warning ∧
    0 ≤ (gaugeBands r m).critical ∧ 0 ≤ (gaugeBands r m).remaining := by
  have hpct0 : 0 ≤ min (r / m * 100) 100 :=
    le_min (by positivity) (by norm_num)
  have hpct100 : min (r / m * 100) 100 ≤ 100 := min_le_right _ _
  unfold gaugeBands
  dsimp only
  split_ifs with h1 h2 <;>
    refine ⟨?_, ?_, ?_, ?_⟩ <;> linarith

/-- Witness for C8 amended at the concrete reading 3000 W against 4500 W. -/
theorem c8_bands_nonneg_witness :
    (0:ℚ) ≤ 3000 ∧ (0:ℚ) < 4500 ∧
    (0 ≤ (gaugeBands 3000 4500).normal ∧ 0 ≤ (gaugeBands 3000 4500).warning ∧
      0 ≤ (gaugeBands 3000 4500).critical ∧ 0 ≤ (gaugeBands 3000 4500).remaining) :=
  ⟨by norm_num, by norm_num, c8_bands_nonneg 3000 4500 (by norm_num) (by norm_num)⟩

theorem deltasAux_length : ∀ (l : List YearEntry) (prev : YearEntry),
    (deltasAux prev l).length = l.length
  | [], _ => rfl
  | e :: rest, prev => by simp [deltasAux, deltasAux_length rest e]

theorem deltas_length (l : List YearEntry) : (deltas l).length = l.length := by
  cases l with
  | nil => rfl
  | cons hd tl => simp [deltas, deltasAux_length]

theorem deltasAux_get (l : List YearEntry) : ∀ (prev : YearEntry) (i : ℕ) (ei ej : YearEntry),
    l[i]? = some ei → (prev :: l)[i]? = some ej →
    (deltasAux prev l)[i]? = some (max 0 (ei.kwh - ej.kwh)) := by
  induction l with
  | nil =>
    intro prev i ei ej h1 _
    simp at h1
  | cons x xs ih =>
    intro prev i ei ej h1 h2
    cases i with
    | zero =>
      simp only [List.getElem?_cons_zero, Option.some.injEq] at h1 h2
      subst h1
      subst h2
      simp [deltasAux]
    | succ j =>
      simp only [List.getElem?_cons_succ] at h1 h2
      simpa [deltasAux] using ih x j ei ej h1 h2

/-- C2: for every entry sequence sorted ascending by year, the delta series
has the same length as the entry series, its head is the first cumulative
value as-is, and every later delta is the clamped difference of consecutive
cumulative values. -/
theorem c2_deltas (l : List YearEntry) (hs : l.Chain' fun a b => a.year ≤ b.year) :
    (deltas l).length = l.length ∧
    (deltas l).head? = l.head?.map YearEntry.kwh ∧
    ∀ (i : ℕ) (ei ej : YearEntry), 0 < i → l[i]? = some ei → l[i - 1]? = some ej →
      (deltas l)[i]? = some (max 0 (ei.kwh - ej.kwh)) := by
  have _hs := hs
  refine ⟨deltas_length l, ?_, ?_⟩
  · cases l <;> simp [deltas]
  · intro i ei ej hi h1 h2
    cases l with
    | nil => simp at h1
    | cons hd tl =>
      cases i with
      | zero => exact absurd hi (lt_irrefl 0)
      | succ j =>
        have hj : j + 1 - 1 = j := rfl
        rw [hj] at h2
        simp only [List.getElem?_cons_succ] at h1
        simpa [deltas] using deltasAux_get tl hd j ei ej h1 h2

/-- Witness for C2 at the spec's concrete example 2022:1000, 2023:1500,
2024:1200. -/
theorem c2_deltas_witness :
    exampleYears1.Chain' (fun a b => a.year ≤ b.year) ∧
    ((deltas exampleYears1).length = exampleYears1.length ∧
      (deltas exampleYears1).head? = exampleYears1.head?.map YearEntry.kwh ∧
      ∀ (i : ℕ) (ei ej : YearEntry), 0 < i → exampleYears1[i]? = some ei →
        exampleYears1[i - 1]? = some ej →
        (deltas exampleYears1)[i]? = some (max 0 (ei.kwh - ej.kwh))) :=
  ⟨by norm_num [exampleYears1, List.chain'_cons], c2_deltas exampleYears1 (by norm_num [exampleYears1, List.chain'_cons])⟩

theorem fullAux_succ {δ α : Type} (test : α → Bool) :
    ∀ (l : List (δ × α)) (i : ℕ),
      fullAux test l (i + 1) = (l.filter fun p => test p.2).map Prod.fst := by
  intro l
  induction l with
  | nil => intro i; rfl
  | cons p rest ih =>
    intro i
    simp only [fullAux, List.filter_cons]
    by_cases h : test p.2
    · simp [h, ih (i + 1)]
    · simp [h, ih (i + 1)]

/-- C3: the full-year differences are exactly the differences of entries that
are not the first of the sorted sequence and whose year is not the current
calendar year; the mean is the arithmetic mean over them, falling back to the
mean over all differences when no full year qualifies. -/
theorem c3_mean (l : List YearEntry) (cy : ℤ) (hne : l ≠ []) :
    fullYearDeltas l cy =
      (((deltas l).zip l).tail.filter fun p => p.2.year != cy).map Prod.fst ∧
    (fullYearDeltas l cy ≠ [] →
      meanKwh l cy = ((fullYearDeltas l cy).sum : ℚ) / (fullYearDeltas l cy).length) ∧
    (fullYearDeltas l cy = [] →
      meanKwh l cy = ((deltas l).sum : ℚ) / (deltas l).length) := by
  refine ⟨?_, ?_, ?_⟩
  · cases l with
    | nil => rfl
    | cons hd tl =>
      show fullAux _ ((hd.kwh :: deltasAux hd tl).zip (hd :: tl)) 0 = _
      rw [List.zip_cons_cons]
      simp [fullAux, fullAux_succ, deltas]
  · intro hne2
    have h1 : 0 < (fullYearDeltas l cy).length := List.length_pos.mpr hne2
    simp only [meanKwh]
    rw [if_pos h1]
  · intro hempty
    have h2 : 0 < (deltas l).length := by
      rw [deltas_length]
      exact List.length_pos.mpr hne
    simp only [meanKwh, hempty]
    simp [h2]

/-- Witness for C3 at the spec's concrete example: years 2020, 2021, 2022 with
deltas 100, 300, 500 and current year 2022. -/
theorem c3_mean_witness :
    exampleYears2 ≠ [] ∧
    (fullYearDeltas exampleYears2 2022 =
      (((deltas exampleYears2).zip exampleYears2).tail.filter
        fun p => p.2.year != (2022:ℤ)).map Prod.fst ∧
    (fullYearDeltas exampleYears2 2022 ≠ [] →
      meanKwh exampleYears2 2022 =
        ((fullYearDeltas exampleYears2 2022).sum : ℚ) /
          (fullYearDeltas exampleYears2 2022).length) ∧
    (fullYearDeltas exampleYears2 2022 = [] →
      meanKwh exampleYears2 2022 =
        ((deltas exampleYears2).sum : ℚ) / (deltas exampleYears2).length)) :=
  ⟨by decide, c3_mean exampleYears2 2022 (by decide)⟩

theorem pairwise_stabRel_orderedInsert (x : ℕ × RawSample) :
    ∀ l : List (ℕ × RawSample), l.Pairwise stabRel → (∀ y ∈ l, x.1 < y.1) →
    (List.orderedInsert tsLeIdx x l).Pairwise stabRel := by
  intro l
  induction l with
  | nil =>
    intro _ _
    simp [List.orderedInsert, List.pairwise_singleton]
  | cons y ys ih =>
    intro hl hx
    rw [List.orderedInsert]
    split_ifs with h
    · refine List.pairwise_cons.mpr ⟨?_, hl⟩
      intro z hz _heq
      exact hx z hz
    · refine List.pairwise_cons.mpr ⟨?_, ?_⟩
      · intro z hz
        rcases (List.mem_orderedInsert _).mp hz with rfl | hz'
        · intro heq
          exact absurd (show tsLeIdx z y from le_of_eq heq.symm) h
        · exact (List.pairwise_cons.mp hl).1 z hz'
      · exact ih (List.pairwise_cons.mp hl).2 fun z hz => hx z (List.mem_cons_of_mem y hz)

theorem pairwise_stabRel_insertionSort :
    ∀ l : List (ℕ × RawSample), (l.Pairwise fun a b => a.1 < b.1) →
    (List.insertionSort tsLeIdx l).Pairwise stabRel := by
  intro l
  induction l with
  | nil =>
    intro _
    simp [List.insertionSort]
  | cons x xs ih =>
    intro hl
    rw [List.insertionSort]
    apply pairwise_stabRel_orderedInsert
    · exact ih (List.pairwise_cons.mp hl).2
    · intro y hy
      exact (List.pairwise_cons.mp hl).1 y ((List.mem_insertionSort _).mp hy)

theorem enum_pairwise_fst (l : List RawSample) : l.enum.Pairwise fun a b => a.1 < b.1 := by
  have h : List.Pairwise (· < ·) (l.enum.map Prod.fst) := by
    rw [List.enum_map_fst]
    exact List.pairwise_lt_range _
  exact List.pairwise_map.mp h

/-- C6: on nonempty input the assembler emits the label and power sequences of
the timestamp-sorted samples; the sorted sequence is ascending in timestamp,
a permutation of the input, the label and power sequences are parallel, and
the sort is stable: equal timestamps keep their original relative order. -/
theorem c6_timeSeries (fmt : ℤ → String) (data : List RawSample) (hne : data ≠ []) :
    updateTimeSeries fmt data =
      TsResult.series ((sortSamples data).map fun s => fmt s.ts)
        ((sortSamples data).map samplePower) ∧
    (sortSamples data).Sorted tsLe ∧
    (sortSamples data).Perm data ∧
    ((sortSamples data).map fun s => fmt s.ts).length =
      ((sortSamples data).map samplePower).length ∧
    (List.insertionSort tsLeIdx data.enum).map Prod.snd = sortSamples data ∧
    (List.insertionSort tsLeIdx data.enum).Pairwise stabRel := by
  refine ⟨?_, ?_, ?_, ?_, ?_, ?_⟩
  · simp [updateTimeSeries, hne]
  · exact List.sorted_insertionSort tsLe data
  · exact List.perm_insertionSort tsLe data
  · simp
  · rw [List.map_insertionSort tsLeIdx tsLe Prod.snd data.enum fun _ _ _ _ => Iff.rfl,
      List.enum_map_snd]
    rfl
  · exact pairwise_stabRel_insertionSort data.enum (enum_pairwise_fst data)

/-- Witness for C6 at the spec's concrete out-of-order samples with
timestamps 100 then 50. -/
theorem c6_timeSeries_witness :
    exampleSamples ≠ [] ∧
    (updateTimeSeries (fun z => toString z) exampleSamples =
      TsResult.series ((sortSamples exampleSamples).map fun s => toString s.ts)
        ((sortSamples exampleSamples).map samplePower) ∧
    (sortSamples exampleSamples).Sorted tsLe ∧
    (sortSamples exampleSamples).Perm exampleSamples ∧
    ((sortSamples exampleSamples).map fun s => toString s.ts).length =
      ((sortSamples exampleSamples).map samplePower).length ∧
    (List.insertionSort tsLeIdx exampleSamples.enum).map Prod.snd = sortSamples exampleSamples ∧
    (List.insertionSort tsLeIdx exampleSamples.enum).Pairwise stabRel) :=
  ⟨by decide, c6_timeSeries (fun z => toString z) exampleSamples (by decide)⟩

/-- C9 counterexample: a sample with raw power -100 is emitted as -100, a
negative value, so emitted powers are not always nonnegative. -/
theorem c9_counterexample : samplePower { ts := 0, power := some (-100) } < 0 := by
  have h : samplePower { ts := 0, power := some (-100) } = -100 := by
    simp only [samplePower, Option.getD_some, jsRound]
    rw [Int.floor_eq_iff]
    norm_num
  rw [h]
  norm_num

/-- C9 amended: a sample with missing power is emitted as exactly 0, and a
sample with nonnegative power is emitted as a nonnegative integer; the
rounding does not clamp negative raw powers. -/
theorem c9_power_nonneg (s : RawSample) :
    (s.power = none → samplePower s = 0) ∧
    ∀ q : ℚ, s.power = some q → 0 ≤ q → 0 ≤ samplePower s := by
  constructor
  · intro h
    simp only [samplePower, h, Option.getD_none, jsRound]
    rw [Int.floor_eq_iff]
    norm_num
  · intro q hq hq0
    simp only [samplePower, hq, Option.getD_some, jsRound]
    exact Int.le_floor.mpr (by push_cast; linarith)

/-- Witness for C9 amended: a missing power yields 0, and a 250 W sample
yields a nonnegative value. -/
theorem c9_power_nonneg_witness :
    samplePower { ts := 0, power := none } = 0 ∧
    0 ≤ samplePower { ts := 0, power := some 250 } :=
  ⟨(c9_power_nonneg { ts := 0, power := none }).1 rfl,
    (c9_power_nonneg { ts := 0, power := some 250 }).2 250 rfl (by norm_num)⟩

theorem jsRound_eq_of (q : ℚ) (z : ℤ) (h1 : (z : ℚ) ≤ q + 1/2) (h2 : q + 1/2 < (z : ℚ) + 1) :
    jsRound q = z := by
  rw [jsRound]
  exact Int.floor_eq_iff.mpr ⟨h1, h2⟩

theorem normalizeOne_canonRecord :
    normalizeOne canonRecord = { year := JVal.num 2024, kwh := some 5 } := by
  have hyear : resolveYear canonRecord = some (JVal.num 2024) := rfl
  have hyield : resolveYieldWh canonRecord = JVal.num 5000 := rfl
  have htr : jsTruthy (JVal.num 5000) = true := by norm_num [jsTruthy]
  have h5 : jsRound ((5000 : ℚ) / 1000) = 5 := jsRound_eq_of _ _ (by norm_num) (by norm_num)
  simp [normalizeOne, hyear, hyield, jsOr, htr, jsNumber, h5]

theorem normalizeOne_canonOutRecord :
    normalizeOne canonOutRecord = { year := JVal.num 2024, kwh := some 0 } := by
  have hyear : resolveYear canonOutRecord = some (JVal.num 2024) := rfl
  have hyield : resolveYieldWh canonOutRecord = JVal.num 0 := rfl
  have htr : jsTruthy (JVal.num 0) = false := by norm_num [jsTruthy]
  have h0 : jsRound (0 : ℚ) = 0 := jsRound_eq_of _ _ (by norm_num) (by norm_num)
  simp [normalizeOne, hyear, hyield, jsOr, htr, jsNumber, h0]

/-- C7 counterexample: re-applying the normalizer to its own output for the
canonical record does not return the same entry, so the normalizer is not
idempotent. -/
theorem c7_counterexample : normalizeOne canonOutRecord ≠ normalizeOne canonRecord := by
  rw [normalizeOne_canonRecord, normalizeOne_canonOutRecord]
  simp

/-- C7 amended: normalizing the canonical record year 2024, yield 5000 yields
the entry year 2024, 5 kWh; re-applying the normalizer to that output keeps
the year but resets the kWh value to 0, because the output stores its kWh
under a key that is not among the yield aliases. -/
theorem c7_normalize_roundtrip :
    normalizeOne canonRecord = { year := JVal.num 2024, kwh := some 5 } ∧
    normalizeOne canonOutRecord = { year := JVal.num 2024, kwh := some 0 } :=
  ⟨normalizeOne_canonRecord, normalizeOne_canonOutRecord⟩

/-- C10: a record whose year alias resolves to the present, non-null string -
is silently dropped by the normalizer exactly like a record with no year at
all, because - doubles as the internal missing-year sentinel. -/
theorem c10_dashYearDropped :
    resolveYear dashYearRecord = some (JVal.str "-") ∧
    normalizeRecords [dashYearRecord] = [] ∧
    normalizeRecords [noYearRecord] = [] :=
  ⟨rfl, rfl, rfl⟩

/-- C4 counterexample: one record with no resolvable year normalizes to the
empty sequence, yet the reducer does not emit the no-data signal because its
guard tests the raw input, before normalization. -/
theorem c4_counterexample :
    normalizeRecords [noYearRecord] = [] ∧
    updateYearlyYield 2025 [noYearRecord] ≠ YearlyResult.noData := by
  refine ⟨rfl, ?_⟩
  intro h
  simp [updateYearlyYield] at h

/-- C4 amended: the yearly reducer emits the no-data signal exactly when the
raw input sequence is empty; the guard runs before normalization, so a
nonempty input whose records are all dropped yields an empty series instead.
The reducer is a total function, hence never throws. -/
theorem c4_noData_iff (cy : ℚ) (data : List RawRecord) :
    updateYearlyYield cy data = YearlyResult.noData ↔ data = [] := by
  cases data with
  | nil => simp [updateYearlyYield]
  | cons r rest => simp [updateYearlyYield]

/-- C5 counterexample: a network failure on the current resource aborts the
cycle before the today and yearly resources are processed, even though both
succeed upstream, so one resource's non-authentication failure does block
the others. -/
theorem c5_counterexample :
    fetchData FetchOutcome.netErr (FetchOutcome.resp true 200 (Body.json true))
        (FetchOutcome.resp true 200 (Body.json true)) = ([], some CycleError.transport) ∧
    Resource.today ∉ (fetchData FetchOutcome.netErr (FetchOutcome.resp true 200 (Body.json true))
        (FetchOutcome.resp true 200 (Body.json true))).1 :=
  ⟨by decide, by decide⟩

/-- C5 amended: when all three responses carry JSON bodies and none is an
unauthorized failure, the cycle completes without error and hands exactly
the successful resources to the sink, so a non-success HTTP response other
than 401 on one resource does not block the other two. -/
theorem c5_jsonNoAuth (okc okt oky : Bool) (nc nt ny : ℕ) (sc st sy : Bool)
    (hc : okc = false → nc ≠ 401) (ht : okt = false → nt ≠ 401) (hy : oky = false → ny ≠ 401) :
    fetchData (.resp okc nc (.json sc)) (.resp okt nt (.json st)) (.resp oky ny (.json sy)) =
      ((if sc then [Resource.current] else []) ++ (if st then [Resource.today] else []) ++
        (if sy then [Resource.yearly] else []), none) := by
  have key : ∀ (ok : Bool) (n : ℕ) (s : Bool), (ok = false → n ≠ 401) →
      processOne (.resp ok n (.json s)) = .ok s := by
    intro ok n s h
    cases ok with
    | true => simp [processOne]
    | false =>
      have hn : (n == 401) = false := by simpa using h rfl
      simp [processOne, hn]
  simp [fetchData, key _ _ _ hc, key _ _ _ ht, key _ _ _ hy, List.append_assoc]

/-- Witness for C5 amended: a 500 response with a JSON success body on the
current resource, the other two succeeding; all three reach the sink. -/
theorem c5_jsonNoAuth_witness :
    ((false : Bool) = false → (500 : ℕ) ≠ 401) ∧
    ((true : Bool) = false → (200 : ℕ) ≠ 401) ∧
    ((true : Bool) = false → (200 : ℕ) ≠ 401) ∧
    fetchData (.resp false 500 (.json true)) (.resp true 200 (.json true))
        (.resp true 200 (.json true)) =
      ((if true then [Resource.current] else []) ++ (if true then [Resource.today] else []) ++
        (if true then [Resource.yearly] else []), none) :=
  ⟨by decide, by decide, by decide,
    c5_jsonNoAuth false true true 500 200 200 true true true (by decide) (by decide) (by decide)⟩

end SmaPwa
